import Mathlib

/-!
# BLEServer_linux.c : the Linux native bridge of the BLE server

Shallow embedding of `src/wrapper-build/native/src/BLEServer_linux.c`.

The three JNI entry points are embedded as state-passing functions over a
`World` that records, in order, everything the process does that is
observable from outside the C function (text written by `printf`, JNI calls,
reads through native pointers, calls into a Bluetooth stack) together with the
native buffers the JVM has handed out and that are still outstanding, and the
answers the JVM will give to the coming getter calls.

Modelling conventions.
* `jint`, `jsize`, `jbyte` values are `Int`; the cast `(unsigned char)` is
  `% 256`.  The loop counter `int i` never exceeds 10, so it is a `Nat`.
* A Java string is the text it holds; the NUL-terminated modified UTF-8 copy
  returned by `GetStringUTFChars` is represented by that text, and `%s`
  prints it back unchanged.
* `GetStringUTFChars` and `GetByteArrayElements` may answer `NULL`, as JNI
  documents for a JVM that cannot allocate the buffer.  The source never tests
  the pointers it gets.
* A native pointer is `none` (the C `NULL`) or `some` address.  A read of a
  byte through `NULL` is a `Fault`; so is reading through, or releasing, an
  address that is not outstanding.  A run that faults ends there: the world
  at the fault is kept, and no value is returned.
* The file is the Linux implementation: with the C library of that platform,
  `%s` given `NULL` prints `(null)`.
-/

namespace BLEServer

/-! ## Formatting done by `printf` -/

/-- Conversion `%d` of a C `int`. -/
def fmt_d (n : Int) : String :=
  if n < 0 then String.mk ('-' :: Nat.toDigits 10 (-n).toNat)
  else String.mk (Nat.toDigits 10 n.toNat)

/-- Digits of `n` in base 16 with the letters in upper case, as `%X` writes them. -/
def hexUpper (n : Nat) : List Char :=
  (Nat.toDigits 16 n).map Char.toUpper

/-- Conversion `%02X` of an unsigned value: upper-case hexadecimal, padded on
the left with zeros to a minimum width of two. -/
def fmt_02X (n : Nat) : String :=
  let ds := hexUpper n
  String.mk (List.replicate (2 - ds.length) '0' ++ ds)

/-- The C cast `(unsigned char)` applied to a `jbyte`. -/
def toUnsignedChar (b : Int) : Nat :=
  (b % 256).toNat

/-! ## The world outside the C functions -/

/-- Contents of a native buffer handed out by the JVM. -/
inductive Buf
  | utf (text : String)
  | elems (bytes : List Int)
deriving DecidableEq, Repr

/-- One observable action of the process.  The pointer carried by a getter or
release event is the one answered or passed, `none` standing for `NULL`. -/
inductive Event
  | print (text : String)
  | getStringUTFChars (p : Option Nat)
  | releaseStringUTFChars (p : Option Nat)
  | getArrayLength (len : Int)
  | getByteArrayElements (p : Option Nat)
  | releaseByteArrayElements (p : Option Nat) (mode : Int)
  | loadString (p : Nat)
  | loadByte (p : Nat) (i : Nat)
  | stack (call : String)
deriving DecidableEq, Repr

/-- State threaded through the native calls: the ordered record of what the
process has done, the native buffers currently outstanding (newest first), and
the answers of the JVM to the coming getter calls, in order (`false`: the JVM
cannot allocate and answers `NULL`; once the list is used up, getters
succeed). -/
structure World where
  log : List Event
  bufs : List (Nat × Buf)
  getterOk : List Bool := []
deriving DecidableEq, Repr

/-- Ways in which the C code can leave defined behaviour through a pointer. -/
inductive Fault
  | nullPointer
  | badPointer
  | outOfBounds
deriving DecidableEq, Repr

/-- Computations in the native code: they thread the world and either return a
value or stop at a fault, in the world reached by then. -/
abbrev Jni (α : Type) : Type := World → Except (Fault × World) (α × World)

/-- Sequencing of two native computations. -/
def Jni.bind {α β : Type} (m : Jni α) (f : α → Jni β) : Jni β :=
  fun w =>
    match m w with
    | .error e => .error e
    | .ok (a, w') => f a w'

instance : Monad Jni where
  pure a := fun w => .ok (a, w)
  bind := Jni.bind

/-- Stop the computation: the C code has left defined behaviour. -/
def fault {α : Type} (e : Fault) : Jni α :=
  fun w => .error (e, w)

/-- Append one event to the record. -/
def emit (e : Event) : Jni Unit :=
  fun w => .ok ((), { w with log := w.log ++ [e] })

/-- The call `printf` with its format already expanded to `text`. -/
def printf (text : String) : Jni Unit :=
  emit (.print text)

/-- The answer of the JVM to the next getter call: whether it can allocate the
buffer.  The answer is used up. -/
def jvmAnswer : Jni Bool :=
  fun w => .ok (w.getterOk.headD true, { w with getterOk := w.getterOk.tail })

/-- Hand out a fresh native buffer holding `b`; its address is returned. -/
def allocBuf (b : Buf) : Jni Nat :=
  fun w => .ok (w.log.length, { w with bufs := (w.log.length, b) :: w.bufs })

/-- The buffer behind an outstanding address. -/
def deref (p : Nat) : Jni Buf :=
  fun w =>
    match w.bufs.lookup p with
    | some b => .ok (b, w)
    | none => .error (.badPointer, w)

/-- Give an outstanding buffer back to the JVM. -/
def freeBuf (p : Nat) : Jni Unit :=
  fun w =>
    match w.bufs.lookup p with
    | some _ => .ok ((), { w with bufs := w.bufs.eraseP (fun e => e.1 == p) })
    | none => .error (.badPointer, w)

/-- JNI `GetStringUTFChars(env, str, 0)`: a pointer to a copy of the text, or
`NULL` when the JVM cannot allocate it. -/
def GetStringUTFChars (str : String) : Jni (Option Nat) := do
  if (← jvmAnswer) then
    let p ← allocBuf (.utf str)
    emit (.getStringUTFChars (some p))
    pure (some p)
  else
    emit (.getStringUTFChars none)
    pure none

/-- JNI `ReleaseStringUTFChars(env, str, chars)`.  Given `NULL` the JVM frees
nothing. -/
def ReleaseStringUTFChars (chars : Option Nat) : Jni Unit := do
  match chars with
  | none => emit (.releaseStringUTFChars none)
  | some p =>
    let b ← deref p
    match b with
    | .utf _ =>
      freeBuf p
      emit (.releaseStringUTFChars (some p))
    | .elems _ => fault .badPointer

/-- JNI `GetArrayLength(env, array)`.  A Java array has at most 2^31 - 1
elements, so its length is held by a `jsize` without wrap-around. -/
def GetArrayLength (array : List Int) : Jni Int := do
  emit (.getArrayLength array.length)
  pure array.length

/-- JNI `GetByteArrayElements(env, array, 0)`: a pointer to the elements, or
`NULL` when the JVM cannot allocate the buffer. -/
def GetByteArrayElements (array : List Int) : Jni (Option Nat) := do
  if (← jvmAnswer) then
    let p ← allocBuf (.elems array)
    emit (.getByteArrayElements (some p))
    pure (some p)
  else
    emit (.getByteArrayElements none)
    pure none

/-- JNI `ReleaseByteArrayElements(env, array, elems, mode)`.  Mode `0` copies
the buffer back into the array and frees it, `JNI_COMMIT` (1) copies back
without freeing, `JNI_ABORT` (2) frees without copying back.  The result is the
content of the Java array afterwards.  Given `NULL`, copying the elements back
reads through `NULL` unless there is no element to copy. -/
def ReleaseByteArrayElements (array : List Int) (elems : Option Nat) (mode : Int) :
    Jni (List Int) := do
  match elems with
  | none =>
    if mode ≠ 2 ∧ array ≠ [] then fault .nullPointer
    else
      emit (.releaseByteArrayElements none mode)
      pure array
  | some p =>
    let b ← deref p
    match b with
    | .elems bytes =>
      if mode ≠ 1 then freeBuf p
      emit (.releaseByteArrayElements (some p) mode)
      pure (if mode = 2 then array else bytes)
    | .utf _ => fault .badPointer

/-- The text the conversion `%s` writes for the C string at `chars`; for
`NULL` the C library writes `(null)` and reads nothing. -/
def loadString (chars : Option Nat) : Jni String := do
  match chars with
  | none => pure "(null)"
  | some p =>
    let b ← deref p
    match b with
    | .utf text =>
      emit (.loadString p)
      pure text
    | .elems _ => fault .badPointer

/-- The read `body[i]` through a `jbyte *`. -/
def loadByte (body : Option Nat) (i : Nat) : Jni Int := do
  match body with
  | none => fault .nullPointer
  | some p =>
    let b ← deref p
    match b with
    | .elems bytes =>
      match bytes[i]? with
      | some v =>
        emit (.loadByte p i)
        pure v
      | none => fault .outOfBounds
    | .utf _ => fault .badPointer

/-! ## The three native methods -/

/-- Native method `nativeStartServer` (source lines 17-37). -/
def Java_main_java_BLEServer_nativeStartServer (serviceUuid charUuid : String) :
    Jni Int := do
  printf "BLEServer Linux: nativeStartServer appelé\n"
  let serviceStr ← GetStringUTFChars serviceUuid
  let charStr ← GetStringUTFChars charUuid
  let s ← loadString serviceStr
  printf ("Service UUID: " ++ s ++ "\n")
  let c ← loadString charStr
  printf ("Characteristic UUID: " ++ c ++ "\n")
  ReleaseStringUTFChars serviceStr
  ReleaseStringUTFChars charStr
  pure (-1)

/-- Native method `nativeStopServer` (source lines 44-49). -/
def Java_main_java_BLEServer_nativeStopServer : Jni Unit := do
  printf "BLEServer Linux: nativeStopServer appelé\n"

/-- The loop `for (int i = 0; i < len && i < 10; i++)` of `nativeNotify`
(source lines 67-69), entered with counter `i`. -/
def dumpLoop (body : Option Nat) (len : Int) (i : Nat) : Jni Unit :=
  if (i : Int) < len ∧ i < 10 then do
    let b ← loadByte body i
    printf (fmt_02X (toUnsignedChar b) ++ " ")
    dumpLoop body len (i + 1)
  else
    pure ()
termination_by 10 - i
decreasing_by omega

/-- Native method `nativeNotify` (source lines 56-77).  The second component
of the result is the content of the caller's array after the call. -/
def Java_main_java_BLEServer_nativeNotify (data : List Int) :
    Jni (Int × List Int) := do
  printf "BLEServer Linux: nativeNotify appelé\n"
  let len ← GetArrayLength data
  let body ← GetByteArrayElements data
  printf ("Données à envoyer (" ++ fmt_d len ++ " bytes): ")
  dumpLoop body len 0
  printf "\n"
  let data' ← ReleaseByteArrayElements data body 0
  pure (-1, data')

/-! ## Observations on the world -/

/-- The initial world of a process in which no native method has run yet. -/
def World.init : World :=
  { log := [], bufs := [] }

/-- The world in which a run ended: at its return, or at its fault. -/
def endWorld {α : Type} : Except (Fault × World) (α × World) → World
  | .ok (_, w) => w
  | .error (_, w) => w

/-- Whether an event is a call into the Bluetooth stack. -/
def Event.isStack : Event → Bool
  | .stack _ => true
  | _ => false

/-- The state a BLE server could live in: the native buffers still
outstanding and the calls made into the Bluetooth stack so far.  The source
file declares no variable of its own, so nothing else persists between two
native calls apart from the text already printed. -/
def World.serverState (w : World) : List (Nat × Buf) × List Event :=
  (w.bufs, w.log.filter Event.isStack)

/-- The native buffer an event hands to the C code, if it is a JNI getter
that answers one. -/
def Event.acquired : Event → Option Nat
  | .getStringUTFChars p => p
  | .getByteArrayElements p => p
  | _ => none

/-- The native buffer an event gives back to the JVM, if it frees one. -/
def Event.released : Event → Option Nat
  | .releaseStringUTFChars p => p
  | .releaseByteArrayElements p mode => if mode = 1 then none else p
  | _ => none

/-- The native buffer an event reads, if it is a read. -/
def Event.readsFrom : Event → Option Nat
  | .loadString p => some p
  | .loadByte p _ => some p
  | _ => none

/-- How many events of `es` give the buffer `p` back to the JVM. -/
def releaseCount (p : Nat) (es : List Event) : Nat :=
  es.countP (fun e => e.released == some p)

/-- In `es`, no read of the buffer `p` comes after an event that releases `p`. -/
def noReadAfterRelease (p : Nat) : List Event → Bool
  | [] => true
  | e :: es =>
    (e.released != some p || es.all (fun e' => e'.readsFrom != some p))
      && noReadAfterRelease p es

/-- Every buffer acquired within `es` is released exactly once within `es`
and is not read after that release. -/
def BufferDiscipline (es : List Event) : Prop :=
  ∀ p ∈ es.filterMap Event.acquired,
    releaseCount p es = 1 ∧ noReadAfterRelease p es = true

/-- How many of the next `k` getter calls are answered with a buffer, given
the answers `answers` the JVM holds ready. -/
def handedOut (answers : List Bool) (k : Nat) : Nat :=
  k - (answers.take k).count false

/-! ## Vocabulary of the specification -/

/-- Whether `c` is a hexadecimal digit. -/
def isHexDigit (c : Char) : Bool :=
  c.isDigit || ('a' ≤ c && c ≤ 'f') || ('A' ≤ c && c ≤ 'F')

/-- The text grammar of a 128-bit UUID: 36 characters, hyphens at offsets
8, 13, 18 and 23, hexadecimal digits everywhere else.  The source never
inspects its string arguments; this predicate only serves to state properties
about well-formed and malformed arguments. -/
def wellFormedUuid128 (s : String) : Bool :=
  s.length == 36 &&
    (List.range 36).all fun i =>
      if i = 8 ∨ i = 13 ∨ i = 18 ∨ i = 23 then s.toList[i]? == some '-'
      else (s.toList[i]?).any isHexDigit

/-- The upper-case hexadecimal digit of value `d`. -/
def upperHexDigit (d : Nat) : Char :=
  "0123456789ABCDEF".toList.getD d '?'

/-! ## Events of one call -/

/-- The pointer a getter answers: the address `a` when the JVM can allocate,
`NULL` otherwise. -/
def answered (ok : Bool) (a : Nat) : Option Nat :=
  if ok then some a else none

/-- The events of one call of `nativeStartServer` entered when `n` events
have already been recorded, the JVM answering the two getters as `ok₁`, `ok₂`. -/
def startEvents (n : Nat) (ok₁ ok₂ : Bool) (serviceUuid charUuid : String) : List Event :=
  [ .print "BLEServer Linux: nativeStartServer appelé\n",
    .getStringUTFChars (answered ok₁ (n + 1)),
    .getStringUTFChars (answered ok₂ (n + 2)) ]
  ++ (if ok₁ then [.loadString (n + 1)] else [])
  ++ [ .print ("Service UUID: " ++ (if ok₁ then serviceUuid else "(null)") ++ "\n") ]
  ++ (if ok₂ then [.loadString (n + 2)] else [])
  ++ [ .print ("Characteristic UUID: " ++ (if ok₂ then charUuid else "(null)") ++ "\n"),
       .releaseStringUTFChars (answered ok₁ (n + 1)),
       .releaseStringUTFChars (answered ok₂ (n + 2)) ]

/-- The events of one call of `nativeStopServer`. -/
def stopEvents : List Event :=
  [ .print "BLEServer Linux: nativeStopServer appelé\n" ]

/-- The events of one pass through the body of the dump loop at index `j`. -/
def dumpStep (p : Nat) (data : List Int) (j : Nat) : List Event :=
  [ .loadByte p j, .print (fmt_02X (toUnsignedChar (data.getD j 0)) ++ " ") ]

/-- The events of the dump loop entered with counter `i` over the buffer `p`
that holds `data`. -/
def dumpEvents (p : Nat) (data : List Int) (i : Nat) : List Event :=
  (List.range' i (min data.length 10 - i)).flatMap (dumpStep p data)

/-- The events of one call of `nativeNotify` on the array `data`, entered when
`n` events have already been recorded, when the JVM hands out the elements. -/
def notifyEvents (n : Nat) (data : List Int) : List Event :=
  [ .print "BLEServer Linux: nativeNotify appelé\n",
    .getArrayLength data.length,
    .getByteArrayElements (some (n + 2)),
    .print ("Données à envoyer (" ++ fmt_d data.length ++ " bytes): ") ]
  ++ dumpEvents (n + 2) data 0
  ++ [ .print "\n", .releaseByteArrayElements (some (n + 2)) 0 ]

/-- The events of a call of `nativeNotify` on `data` up to the dump loop, when
the JVM answers `NULL` to the getter. -/
def notifyNullEvents (data : List Int) : List Event :=
  [ .print "BLEServer Linux: nativeNotify appelé\n",
    .getArrayLength data.length,
    .getByteArrayElements none,
    .print ("Données à envoyer (" ++ fmt_d data.length ++ " bytes): ") ]

/-! ## Execution of the native methods -/

theorem beq_add_one (n : Nat) : (n == n + 1) = false := by simp

theorem add_one_beq (n : Nat) : (n + 1 == n) = false := by simp

theorem startServer_run (s c : String) (w : World) :
    Java_main_java_BLEServer_nativeStartServer s c w
      = .ok (-1, { log := w.log ++ startEvents w.log.length
                      (w.getterOk.headD true) (w.getterOk.tail.headD true) s c,
                   bufs := w.bufs, getterOk := w.getterOk.tail.tail }) := by
  obtain ⟨log, bufs, answers⟩ := w
  rcases answers with _ | ⟨_ | _, _ | ⟨_ | _, rest⟩⟩ <;>
    simp [Java_main_java_BLEServer_nativeStartServer, startEvents, answered, bind,
      Jni.bind, pure, printf, emit, GetStringUTFChars, jvmAnswer, allocBuf, loadString,
      deref, ReleaseStringUTFChars, freeBuf, fault, List.lookup, beq_add_one, add_one_beq,
      List.eraseP_cons]

theorem stopServer_run (w : World) :
    Java_main_java_BLEServer_nativeStopServer w
      = .ok ((), { w with log := w.log ++ stopEvents }) := by
  simp [Java_main_java_BLEServer_nativeStopServer, stopEvents, printf, emit]

theorem dumpLoop_run (p : Nat) (data : List Int) :
    ∀ (k i : Nat) (w : World), min data.length 10 - i = k →
      w.bufs.lookup p = some (.elems data) →
      dumpLoop (some p) data.length i w
        = .ok ((), { w with log := w.log ++ dumpEvents p data i }) := by
  intro k
  induction k with
  | zero =>
    intro i w hk _
    have hc : ¬ (((i : Int) < (data.length : Int)) ∧ i < 10) := by omega
    rw [dumpLoop, if_neg hc]
    simp [dumpEvents, hk, pure]
  | succ k ih =>
    intro i w hk hw
    have hc : ((i : Int) < (data.length : Int)) ∧ i < 10 := by omega
    have hi : i < data.length := by omega
    have hget : data[i]? = some (data.getD i 0) := by
      simp [List.getElem?_eq_getElem hi]
    rw [dumpLoop, if_pos hc]
    have hstep : loadByte (some p) i w
        = .ok (data.getD i 0, { w with log := w.log ++ [.loadByte p i] }) := by
      simp only [loadByte, bind, Jni.bind, deref, hw, hget, emit, pure]
    have hnext := ih (i + 1)
      { w with log := (w.log ++ [.loadByte p i])
          ++ [.print (fmt_02X (toUnsignedChar (data.getD i 0)) ++ " ")] }
      (by omega) hw
    simp only [bind, Jni.bind, hstep, printf, emit]
    rw [hnext]
    simp [dumpEvents, hk, dumpStep, List.range'_succ]
    have : min data.length 10 - (i + 1) = k := by omega
    simp [this]

theorem dumpLoop_null (len : Int) (hlen : 0 < len) (w : World) :
    dumpLoop none len 0 w = .error (.nullPointer, w) := by
  have hc : ((0 : Nat) : Int) < len ∧ 0 < 10 := ⟨by simpa using hlen, by decide⟩
  rw [dumpLoop, if_pos hc]
  simp [bind, Jni.bind, loadByte, fault]

theorem notify_run_ok (data : List Int) (w : World) (hok : w.getterOk.headD true = true) :
    Java_main_java_BLEServer_nativeNotify data w
      = .ok ((-1, data), { log := w.log ++ notifyEvents w.log.length data,
                           bufs := w.bufs, getterOk := w.getterOk.tail }) := by
  have hloop := dumpLoop_run (w.log.length + 2) data _ 0
    { log := w.log ++ [ .print "BLEServer Linux: nativeNotify appelé\n",
        .getArrayLength data.length, .getByteArrayElements (some (w.log.length + 2)),
        .print ("Données à envoyer (" ++ fmt_d data.length ++ " bytes): ") ],
      bufs := (w.log.length + 2, .elems data) :: w.bufs,
      getterOk := w.getterOk.tail } rfl (by simp [List.lookup])
  simp only [Java_main_java_BLEServer_nativeNotify, bind, Jni.bind, printf, emit,
    GetArrayLength, GetByteArrayElements, jvmAnswer, hok, if_true, allocBuf, pure,
    List.length_append, List.length_singleton, List.length_cons, List.length_nil,
    List.append_assoc, List.singleton_append, List.cons_append, List.nil_append,
    Nat.zero_add, Nat.reduceAdd]
  rw [hloop]
  simp [ReleaseByteArrayElements, bind, Jni.bind, deref, List.lookup, freeBuf, emit, pure,
    notifyEvents, List.eraseP_cons]

theorem notify_run_null (data : List Int) (w : World)
    (hnull : w.getterOk.headD true = false) (hdata : data ≠ []) :
    Java_main_java_BLEServer_nativeNotify data w
      = .error (.nullPointer, { log := w.log ++ notifyNullEvents data,
                                bufs := w.bufs, getterOk := w.getterOk.tail }) := by
  have hlen : (0 : Int) < (data.length : Int) := by
    have := List.length_pos.mpr hdata
    omega
  simp only [Java_main_java_BLEServer_nativeNotify, bind, Jni.bind, printf, emit,
    GetArrayLength, GetByteArrayElements, jvmAnswer, hnull, pure, List.append_assoc,
    List.singleton_append, List.cons_append, List.nil_append]
  simp [Jni.bind, emit, dumpLoop_null _ hlen, notifyNullEvents]

theorem notify_run_null_empty (w : World) (hnull : w.getterOk.headD true = false) :
    Java_main_java_BLEServer_nativeNotify [] w
      = .ok ((-1, []), { log := w.log ++ (notifyNullEvents []
                            ++ [ .print "\n", .releaseByteArrayElements none 0 ]),
                         bufs := w.bufs, getterOk := w.getterOk.tail }) := by
  have hnull' : w.getterOk.head?.getD true = false := by simpa using hnull
  simp [Java_main_java_BLEServer_nativeNotify, bind, Jni.bind, printf, emit,
    GetArrayLength, GetByteArrayElements, jvmAnswer, hnull', pure, dumpLoop,
    ReleaseByteArrayElements, notifyNullEvents]

/-! ## Facts about the events of one call -/

theorem dumpEvents_mem {p : Nat} {data : List Int} {i : Nat} {e : Event}
    (h : e ∈ dumpEvents p data i) :
    ∃ j, i ≤ j ∧ j < min data.length 10 ∧
      (e = .loadByte p j ∨ e = .print (fmt_02X (toUnsignedChar (data.getD j 0)) ++ " ")) := by
  simp only [dumpEvents, List.mem_flatMap, List.mem_range', dumpStep, List.mem_cons,
    List.mem_singleton, List.not_mem_nil, or_false] at h
  obtain ⟨j, ⟨k, hk, rfl⟩, he⟩ := h
  exact ⟨i + 1 * k, by omega, by omega, he⟩

theorem startEvents_noStack (n : Nat) (ok₁ ok₂ : Bool) (s c : String) :
    ∀ e ∈ startEvents n ok₁ ok₂ s c, e.isStack = false := by
  cases ok₁ <;> cases ok₂ <;> simp [startEvents, Event.isStack]

theorem dumpEvents_noStack (p : Nat) (data : List Int) (i : Nat) :
    ∀ e ∈ dumpEvents p data i, e.isStack = false := by
  intro e he
  obtain ⟨j, _, _, h | h⟩ := dumpEvents_mem he <;> simp [h, Event.isStack]

theorem notifyEvents_noStack (n : Nat) (data : List Int) :
    ∀ e ∈ notifyEvents n data, e.isStack = false := by
  intro e he
  rw [notifyEvents] at he
  rcases List.mem_append.mp he with h | h
  · rcases List.mem_append.mp h with h | h
    · simp only [List.mem_cons, List.mem_singleton, List.not_mem_nil, or_false] at h
      rcases h with h | h | h | h <;> simp [h, Event.isStack]
    · exact dumpEvents_noStack _ _ _ e h
  · simp only [List.mem_cons, List.mem_singleton, List.not_mem_nil, or_false] at h
    rcases h with h | h <;> simp [h, Event.isStack]

theorem notifyNullEvents_noStack (data : List Int) :
    ∀ e ∈ notifyNullEvents data ++ [ .print "\n", .releaseByteArrayElements none 0 ],
      e.isStack = false := by
  simp [notifyNullEvents, Event.isStack]

theorem serverState_of_append (w w' : World) (es : List Event)
    (hlog : w'.log = w.log ++ es) (hbufs : w'.bufs = w.bufs)
    (h : ∀ e ∈ es, e.isStack = false) :
    w'.serverState = w.serverState := by
  have hnil : es.filter Event.isStack = [] := by
    rw [List.filter_eq_nil_iff]
    intro e he
    simp [h e he]
  simp [World.serverState, hlog, hbufs, List.filter_append, hnil]

theorem noReadAfterRelease_append (p : Nat) (a b : List Event)
    (h : ∀ e ∈ a, e.released ≠ some p) :
    noReadAfterRelease p (a ++ b) = noReadAfterRelease p b := by
  induction a with
  | nil => rfl
  | cons e a ih =>
    have he : e.released ≠ some p := h e (List.mem_cons_self _ _)
    have ha : ∀ e' ∈ a, e'.released ≠ some p :=
      fun e' he' => h e' (List.mem_cons_of_mem _ he')
    simp [noReadAfterRelease, he, ih ha]

theorem dumpEvents_released (p : Nat) (data : List Int) (i : Nat) :
    ∀ e ∈ dumpEvents p data i, e.released = none := by
  intro e he
  obtain ⟨j, _, _, h | h⟩ := dumpEvents_mem he <;> simp [h, Event.released]

theorem dumpEvents_acquired (p : Nat) (data : List Int) (i : Nat) :
    (dumpEvents p data i).filterMap Event.acquired = [] := by
  rw [List.filterMap_eq_nil_iff]
  intro e he
  obtain ⟨j, _, _, h | h⟩ := dumpEvents_mem he <;> simp [h, Event.acquired]

theorem startEvents_discipline (n : Nat) (ok₁ ok₂ : Bool) (s c : String) :
    BufferDiscipline (startEvents n ok₁ ok₂ s c) := by
  intro p hp
  cases ok₁ <;> cases ok₂ <;> simp [startEvents, answered, Event.acquired] at hp
  · subst hp
    simp [startEvents, answered, releaseCount, noReadAfterRelease, Event.released,
      Event.readsFrom, List.countP_cons]
  · subst hp
    simp [startEvents, answered, releaseCount, noReadAfterRelease, Event.released,
      Event.readsFrom, List.countP_cons]
  · rcases hp with rfl | rfl <;>
      simp [startEvents, answered, releaseCount, noReadAfterRelease, Event.released,
        Event.readsFrom, List.countP_cons]

theorem startEvents_handedOut (n : Nat) (answers : List Bool) (s c : String) :
    ((startEvents n (answers.headD true) (answers.tail.headD true) s c).filterMap
      Event.acquired).length = handedOut answers 2 := by
  rcases answers with _ | ⟨_ | _, _ | ⟨_ | _, rest⟩⟩ <;>
    simp [startEvents, answered, Event.acquired, handedOut]

theorem notifyEvents_discipline (n : Nat) (data : List Int) :
    BufferDiscipline (notifyEvents n data) := by
  intro p hp
  simp [notifyEvents, List.filterMap_append, dumpEvents_acquired, Event.acquired] at hp
  subst hp
  have hcount : releaseCount (n + 2) (dumpEvents (n + 2) data 0) = 0 := by
    rw [releaseCount, List.countP_eq_zero]
    intro e he
    simp [dumpEvents_released _ _ _ e he]
  constructor
  · simp only [notifyEvents, releaseCount, List.countP_append] at hcount ⊢
    rw [hcount]
    simp [List.countP_cons, Event.released]
  · have hpre : ∀ e ∈ [ Event.print "BLEServer Linux: nativeNotify appelé\n",
        .getArrayLength data.length, .getByteArrayElements (some (n + 2)),
        .print ("Données à envoyer (" ++ fmt_d data.length ++ " bytes): ") ]
        ++ dumpEvents (n + 2) data 0, e.released ≠ some (n + 2) := by
      intro e he
      rcases List.mem_append.mp he with h | h
      · simp only [List.mem_cons, List.mem_singleton, List.not_mem_nil, or_false] at h
        rcases h with h | h | h | h <;> simp [h, Event.released]
      · simp [dumpEvents_released _ _ _ e h]
    rw [notifyEvents, noReadAfterRelease_append _ _ _ hpre]
    simp [noReadAfterRelease, Event.released, Event.readsFrom]

theorem notifyEvents_acquired (n : Nat) (data : List Int) :
    ((notifyEvents n data).filterMap Event.acquired).length = 1 := by
  simp [notifyEvents, List.filterMap_append, dumpEvents_acquired, Event.acquired]

theorem handedOut_one (answers : List Bool) :
    handedOut answers 1 = if answers.headD true then 1 else 0 := by
  rcases answers with _ | ⟨_ | _, rest⟩ <;> simp [handedOut]

set_option maxRecDepth 100000 in
theorem fmt_02X_byte :
    ∀ u : Fin 256,
      fmt_02X u.val = String.mk [upperHexDigit (u.val / 16), upperHexDigit (u.val % 16)] := by
  decide

theorem fmt_02X_unsignedChar (b : Int) :
    fmt_02X (toUnsignedChar b) ++ " "
      = String.mk [upperHexDigit ((b % 256).toNat / 16),
          upperHexDigit ((b % 256).toNat % 16), ' '] := by
  have hlt : (b % 256).toNat < 256 := by omega
  have h := fmt_02X_byte ⟨(b % 256).toNat, hlt⟩
  simp only at h
  rw [toUnsignedChar, h]
  rfl

theorem fmt_d_nat (n : Nat) : fmt_d (n : Int) = toString n := by
  have h : ¬ ((n : Int) < 0) := by omega
  simp [fmt_d, h, toString, Nat.repr, List.asString]

/-! ## Runs in which the JVM hands out the array elements -/

/-- A twelve-byte array: the count line says 12, ten bytes are dumped, and the
negative byte -1 is printed as FF. -/
theorem notify_twelve_bytes :
    Java_main_java_BLEServer_nativeNotify [-1, 0, 10, 127, -128, 5, 6, 7, 8, 9, 10, 11]
        World.init
      = .ok ((-1, [-1, 0, 10, 127, -128, 5, 6, 7, 8, 9, 10, 11]),
          { log := [ .print "BLEServer Linux: nativeNotify appelé\n",
              .getArrayLength 12, .getByteArrayElements (some 2),
              .print "Données à envoyer (12 bytes): ",
              .loadByte 2 0, .print "FF ", .loadByte 2 1, .print "00 ",
              .loadByte 2 2, .print "0A ", .loadByte 2 3, .print "7F ",
              .loadByte 2 4, .print "80 ", .loadByte 2 5, .print "05 ",
              .loadByte 2 6, .print "06 ", .loadByte 2 7, .print "07 ",
              .loadByte 2 8, .print "08 ", .loadByte 2 9, .print "09 ",
              .print "\n", .releaseByteArrayElements (some 2) 0 ],
            bufs := [] }) := by
  rw [notify_run_ok _ World.init rfl]
  rfl

/-- When the JVM hands out the elements of `data`, `nativeNotify` returns -1
and the events it adds are: the header line, the length query, the array
getter, the line reporting the full length in decimal, then for each index
from 0 to `min data.length 10 - 1` in increasing order one read of `body[i]`
followed by the print of the two upper-case hexadecimal digits of
`data[i] mod 256` and a space, then the newline and the release. -/
theorem notify_dump_of_buffer (data : List Int) (w : World)
    (hok : w.getterOk.headD true = true) :
    ∃ w', Java_main_java_BLEServer_nativeNotify data w = .ok ((-1, data), w') ∧
      w'.log = w.log ++
        ([ .print "BLEServer Linux: nativeNotify appelé\n",
          .getArrayLength data.length,
          .getByteArrayElements (some (w.log.length + 2)),
          .print ("Données à envoyer (" ++ toString data.length ++ " bytes): ") ]
        ++ (List.range (min data.length 10)).flatMap (fun i =>
          [ Event.loadByte (w.log.length + 2) i,
            Event.print (String.mk
              [ upperHexDigit ((data.getD i 0 % 256).toNat / 16),
                upperHexDigit ((data.getD i 0 % 256).toNat % 16), ' ' ]) ])
        ++ [ .print "\n", .releaseByteArrayElements (some (w.log.length + 2)) 0 ]) := by
  refine ⟨_, notify_run_ok data w hok, ?_⟩
  have hstep : dumpStep (w.log.length + 2) data = fun i =>
      [ Event.loadByte (w.log.length + 2) i,
        Event.print (String.mk
          [ upperHexDigit ((data.getD i 0 % 256).toNat / 16),
            upperHexDigit ((data.getD i 0 % 256).toNat % 16), ' ' ]) ] := by
    funext i
    rw [dumpStep, fmt_02X_unsignedChar]
  simp only
  rw [notifyEvents, dumpEvents, hstep, fmt_d_nat, List.range_eq_range', Nat.sub_zero]

/-! ## The claims -/

/-- C1, as stated, fails: on the well-formed pair of the scenario, in the
initial world, `nativeStartServer` does not return status 0. -/
theorem startServer_scenario_not_success :
    wellFormedUuid128 "0000180d-0000-1000-8000-00805f9b34fb" = true ∧
    wellFormedUuid128 "00002a37-0000-1000-8000-00805f9b34fb" = true ∧
    ¬ ∃ w', Java_main_java_BLEServer_nativeStartServer
        "0000180d-0000-1000-8000-00805f9b34fb" "00002a37-0000-1000-8000-00805f9b34fb"
        World.init = .ok (0, w') := by
  refine ⟨by decide, by decide, ?_⟩
  rintro ⟨w', h⟩
  rw [startServer_run] at h
  simp at h

/-- C1, amended: for every pair of well-formed 128-bit UUID strings, in every
world, `nativeStartServer` returns and its status is -1, the failure code. -/
theorem startServer_wellFormed_fails (s c : String)
    (_hs : wellFormedUuid128 s = true) (_hc : wellFormedUuid128 c = true) (w : World) :
    ∃ w', Java_main_java_BLEServer_nativeStartServer s c w = .ok (-1, w') :=
  ⟨_, startServer_run s c w⟩

theorem startServer_wellFormed_fails_witness :
    wellFormedUuid128 "0000180d-0000-1000-8000-00805f9b34fb" = true ∧
    wellFormedUuid128 "00002a37-0000-1000-8000-00805f9b34fb" = true ∧
    ∃ w', Java_main_java_BLEServer_nativeStartServer
        "0000180d-0000-1000-8000-00805f9b34fb" "00002a37-0000-1000-8000-00805f9b34fb"
        World.init = .ok (-1, w') :=
  ⟨by decide, by decide,
    startServer_wellFormed_fails "0000180d-0000-1000-8000-00805f9b34fb"
      "00002a37-0000-1000-8000-00805f9b34fb" (by decide) (by decide) World.init⟩

/-- C2: for every service UUID string and every characteristic UUID string,
well-formed or not, and in every world (whatever the JVM answers to the two
getters), `nativeStartServer` returns exactly -1, a negative status; the
status is the same for any two pairs of arguments. -/
theorem startServer_always_minus_one (s c : String) (w : World) :
    (∃ w', Java_main_java_BLEServer_nativeStartServer s c w = .ok (-1, w')) ∧
    (-1 : Int) < 0 ∧
    ∀ (s₂ c₂ : String) (r r₂ : Int) (w' w₂ : World),
      Java_main_java_BLEServer_nativeStartServer s c w = .ok (r, w') →
      Java_main_java_BLEServer_nativeStartServer s₂ c₂ w = .ok (r₂, w₂) → r = r₂ := by
  refine ⟨⟨_, startServer_run s c w⟩, by decide, ?_⟩
  intro s₂ c₂ r r₂ w' w₂ h h₂
  rw [startServer_run] at h h₂
  simp only [Except.ok.injEq, Prod.mk.injEq] at h h₂
  rw [← h.1, ← h₂.1]

/-- C3, failing input: on the array `[6, 80]`, when the JVM answers `NULL` to
`GetByteArrayElements`, `nativeNotify` does not return -1: the first read
`body[0]` of the dump loop goes through `NULL` and the run ends there, after
the count line, without any status. -/
theorem notify_null_elements_returns_nothing :
    Java_main_java_BLEServer_nativeNotify [6, 80]
        { log := [], bufs := [], getterOk := [false] }
      = .error (.nullPointer,
          { log := [ .print "BLEServer Linux: nativeNotify appelé\n",
              .getArrayLength 2, .getByteArrayElements none,
              .print "Données à envoyer (2 bytes): " ],
            bufs := [] }) := by
  rw [notify_run_null [6, 80] { log := [], bufs := [], getterOk := [false] } rfl (by decide)]
  rfl

/-- C4: for every pair of UUID strings of which at least one is not a
well-formed 128-bit UUID, `nativeStartServer` returns a negative status, makes
no call into the Bluetooth stack, and leaves the server state (outstanding
buffers, stack calls made) as it found it. -/
theorem startServer_malformed_fails (s c : String)
    (_h : wellFormedUuid128 s = false ∨ wellFormedUuid128 c = false) (w : World) :
    ∃ r es w', Java_main_java_BLEServer_nativeStartServer s c w = .ok (r, w') ∧
      w'.log = w.log ++ es ∧ w'.bufs = w.bufs ∧
      r < 0 ∧ (∀ e ∈ es, e.isStack = false) ∧
      w'.serverState = w.serverState :=
  ⟨-1, _, _, startServer_run s c w, rfl, rfl, by decide, startEvents_noStack _ _ _ _ _,
    serverState_of_append w _ _ rfl rfl (startEvents_noStack _ _ _ _ _)⟩

theorem startServer_malformed_fails_witness :
    (wellFormedUuid128 "180d" = false ∨
      wellFormedUuid128 "00002a37-0000-1000-8000-00805f9b34fb" = false) ∧
    ∃ r es w', Java_main_java_BLEServer_nativeStartServer "180d"
        "00002a37-0000-1000-8000-00805f9b34fb" World.init = .ok (r, w') ∧
      w'.log = World.init.log ++ es ∧ w'.bufs = World.init.bufs ∧
      r < 0 ∧ (∀ e ∈ es, e.isStack = false) ∧
      w'.serverState = World.init.serverState :=
  ⟨Or.inl (by decide),
    startServer_malformed_fails "180d" "00002a37-0000-1000-8000-00805f9b34fb"
      (Or.inl (by decide)) World.init⟩

/-- C5, failing input: on the payload `[127]`, in a world where no central is
connected and the JVM answers `NULL` to `GetByteArrayElements`, `nativeNotify`
returns no status at all, negative or not: the run ends at the read `body[0]`.
Up to there it has made no call into the Bluetooth stack and the server state
is the one at entry. -/
theorem notify_null_elements_no_failure_status :
    (∀ (r : Int) (d : List Int) (w' : World),
      Java_main_java_BLEServer_nativeNotify [127]
        { log := [], bufs := [], getterOk := [false] } ≠ .ok ((r, d), w')) ∧
    (∃ w', Java_main_java_BLEServer_nativeNotify [127]
        { log := [], bufs := [], getterOk := [false] } = .error (.nullPointer, w') ∧
      w'.serverState
        = World.serverState { log := [], bufs := [], getterOk := [false] }) := by
  rw [notify_run_null [127] { log := [], bufs := [], getterOk := [false] } rfl (by decide)]
  refine ⟨?_, _, rfl, ?_⟩
  · intro r d w' h
    cases h
  · decide

/-- C6: `nativeStopServer` returns without fault in every world, the initial
one included; it leaves the server state unchanged, and a second call in a row
only appends one more diagnostic line to the record, so the server state after
two calls is the one after a single call. -/
theorem stopServer_idempotent (w : World) :
    (∃ w', Java_main_java_BLEServer_nativeStopServer World.init = .ok ((), w')) ∧
    ∃ w₁ w₂, Java_main_java_BLEServer_nativeStopServer w = .ok ((), w₁) ∧
      Java_main_java_BLEServer_nativeStopServer w₁ = .ok ((), w₂) ∧
      w₁.serverState = w.serverState ∧
      w₂.serverState = w₁.serverState ∧
      w₂ = { w₁ with log := w₁.log
        ++ [Event.print "BLEServer Linux: nativeStopServer appelé\n"] } := by
  refine ⟨⟨_, stopServer_run _⟩, _, _, stopServer_run w, stopServer_run _, ?_, ?_, rfl⟩
  · exact serverState_of_append w _ stopEvents rfl rfl (by simp [stopEvents, Event.isStack])
  · exact serverState_of_append _ _ stopEvents rfl rfl (by simp [stopEvents, Event.isStack])

/-- C7: whenever `nativeNotify` returns a negative status, the content of the
caller's array after the call is its content before the call, and the server
state (which is all the storage a characteristic value could occupy) is
unchanged. -/
theorem notify_failure_changes_no_data (data : List Int) (w : World)
    (r : Int) (data' : List Int) (w' : World)
    (h : Java_main_java_BLEServer_nativeNotify data w = .ok ((r, data'), w'))
    (_hr : r < 0) :
    data' = data ∧ w'.serverState = w.serverState := by
  cases hok : w.getterOk.headD true
  · by_cases hd : data = []
    · subst hd
      rw [notify_run_null_empty w hok] at h
      simp only [Except.ok.injEq, Prod.mk.injEq] at h
      obtain ⟨⟨_, hd⟩, hw⟩ := h
      subst hd hw
      exact ⟨rfl, serverState_of_append w _ _ rfl rfl (notifyNullEvents_noStack [])⟩
    · rw [notify_run_null data w hok hd] at h
      cases h
  · rw [notify_run_ok data w hok] at h
    simp only [Except.ok.injEq, Prod.mk.injEq] at h
    obtain ⟨⟨_, hd⟩, hw⟩ := h
    subst hd hw
    exact ⟨rfl, serverState_of_append w _ _ rfl rfl (notifyEvents_noStack _ _)⟩

theorem notify_failure_changes_no_data_witness :
    Java_main_java_BLEServer_nativeNotify [6, 80] World.init
        = .ok ((-1, [6, 80]),
            { log := [ .print "BLEServer Linux: nativeNotify appelé\n",
                .getArrayLength 2, .getByteArrayElements (some 2),
                .print "Données à envoyer (2 bytes): ",
                .loadByte 2 0, .print "06 ", .loadByte 2 1, .print "50 ",
                .print "\n", .releaseByteArrayElements (some 2) 0 ],
              bufs := [] }) ∧
      (-1 : Int) < 0 ∧
      ([6, 80] : List Int) = [6, 80] ∧
      World.serverState
          { log := [ .print "BLEServer Linux: nativeNotify appelé\n",
              .getArrayLength 2, .getByteArrayElements (some 2),
              .print "Données à envoyer (2 bytes): ",
              .loadByte 2 0, .print "06 ", .loadByte 2 1, .print "50 ",
              .print "\n", .releaseByteArrayElements (some 2) 0 ],
            bufs := [] }
        = World.init.serverState := by
  have h : Java_main_java_BLEServer_nativeNotify [6, 80] World.init
      = .ok ((-1, [6, 80]),
          { log := [ .print "BLEServer Linux: nativeNotify appelé\n",
              .getArrayLength 2, .getByteArrayElements (some 2),
              .print "Données à envoyer (2 bytes): ",
              .loadByte 2 0, .print "06 ", .loadByte 2 1, .print "50 ",
              .print "\n", .releaseByteArrayElements (some 2) 0 ],
            bufs := [] }) := by
    simp [Java_main_java_BLEServer_nativeNotify, bind, Jni.bind, printf, emit,
      GetArrayLength, GetByteArrayElements, jvmAnswer, allocBuf, pure, World.init, dumpLoop,
      loadByte, deref, List.lookup, ReleaseByteArrayElements, freeBuf, List.eraseP_cons]
    decide
  exact ⟨h, by decide,
    notify_failure_changes_no_data [6, 80] World.init (-1) [6, 80] _ h (by decide)⟩

/-- C8: in every call of `nativeStartServer` and of `nativeNotify`, whatever
the JVM answers to the getters, every buffer the call obtains is released
exactly once within the call and is not read after that release, and the set
of outstanding buffers when the run ends is the one at entry, so that no
buffer of the call is retained.  `nativeStartServer` always returns;
`nativeNotify` returns, or ends at a read through `NULL` in a run in which no
buffer was handed out (never at a read or release of a dead buffer). -/
theorem buffers_released_once (s c : String) (data : List Int) (w : World) :
    (∃ r w' es, Java_main_java_BLEServer_nativeStartServer s c w = .ok (r, w') ∧
      w'.log = w.log ++ es ∧ w'.bufs = w.bufs ∧
      (es.filterMap Event.acquired).length = handedOut w.getterOk 2 ∧
      BufferDiscipline es) ∧
    (∃ es,
      (endWorld (Java_main_java_BLEServer_nativeNotify data w)).log = w.log ++ es ∧
      (endWorld (Java_main_java_BLEServer_nativeNotify data w)).bufs = w.bufs ∧
      (es.filterMap Event.acquired).length = handedOut w.getterOk 1 ∧
      BufferDiscipline es ∧
      ((∃ r w', Java_main_java_BLEServer_nativeNotify data w = .ok (r, w')) ∨
        (∃ w', Java_main_java_BLEServer_nativeNotify data w = .error (.nullPointer, w') ∧
          handedOut w.getterOk 1 = 0))) := by
  constructor
  · exact ⟨_, _, _, startServer_run s c w, rfl, rfl, startEvents_handedOut _ _ _ _,
      startEvents_discipline _ _ _ _ _⟩
  · cases hok : w.getterOk.headD true
    · have hnone : handedOut w.getterOk 1 = 0 := by rw [handedOut_one, hok]; rfl
      by_cases hd : data = []
      · subst hd
        rw [notify_run_null_empty w hok, hnone]
        refine ⟨_, rfl, rfl, by simp [notifyNullEvents, Event.acquired], ?_,
          Or.inl ⟨_, _, rfl⟩⟩
        intro p hp
        simp [notifyNullEvents, Event.acquired] at hp
      · rw [notify_run_null data w hok hd, hnone]
        refine ⟨_, rfl, rfl, by simp [notifyNullEvents, Event.acquired], ?_,
          Or.inr ⟨_, rfl, rfl⟩⟩
        intro p hp
        simp [notifyNullEvents, Event.acquired] at hp
    · have hone : handedOut w.getterOk 1 = 1 := by rw [handedOut_one, hok]; rfl
      rw [notify_run_ok data w hok, hone]
      exact ⟨_, rfl, rfl, notifyEvents_acquired _ _, notifyEvents_discipline _ _,
        Or.inl ⟨_, _, rfl⟩⟩

/-- C9: of two calls of `nativeStartServer` in a row, with any arguments and
from any world, both return, the second returns a negative status, and the
server state after the second call is the one after the first. -/
theorem startServer_twice (s₁ c₁ s₂ c₂ : String) (w : World) :
    ∃ r₁ w₁ r₂ w₂,
      Java_main_java_BLEServer_nativeStartServer s₁ c₁ w = .ok (r₁, w₁) ∧
      Java_main_java_BLEServer_nativeStartServer s₂ c₂ w₁ = .ok (r₂, w₂) ∧
      r₂ < 0 ∧ w₂.serverState = w₁.serverState :=
  ⟨_, _, _, _, startServer_run s₁ c₁ w, startServer_run s₂ c₂ _, by decide,
    serverState_of_append _ _ _ rfl rfl (startEvents_noStack _ _ _ _ _)⟩

/-- C10, failing input: on a twelve-byte array, when the JVM answers `NULL`
to `GetByteArrayElements`, the dump loop does not run to its end: entered with
`body = NULL` it ends at its first read, and the record of `nativeNotify` stops
after the count line (which does report 12), with no byte read and no
hexadecimal digit written. -/
theorem dumpLoop_null_body_faults :
    dumpLoop none 12 0 World.init = .error (.nullPointer, World.init) ∧
    Java_main_java_BLEServer_nativeNotify [-1, 0, 10, 127, -128, 5, 6, 7, 8, 9, 10, 11]
        { log := [], bufs := [], getterOk := [false] }
      = .error (.nullPointer,
          { log := [ .print "BLEServer Linux: nativeNotify appelé\n",
              .getArrayLength 12, .getByteArrayElements none,
              .print "Données à envoyer (12 bytes): " ],
            bufs := [] }) := by
  refine ⟨dumpLoop_null 12 (by decide) World.init, ?_⟩
  rw [notify_run_null [-1, 0, 10, 127, -128, 5, 6, 7, 8, 9, 10, 11]
    { log := [], bufs := [], getterOk := [false] } rfl (by decide)]
  rfl

end BLEServer
